import Mathlib

/-!
Shallow embedding of the BARK Linux security module (kernel-bark):
the entropy governor (bark_entropy.c), the signature verification and
cache subsystem (bark_signature.c), the authorization orchestrator and
LSM hooks (bark_main.c, bark_hooks.c), and the statistics counters
(bark.h).  Machine integers are modelled as Nat/Int; the C `unsigned
long` read of the signed `atomic_long_t` entropy counter is modelled by
an explicit cast modulo 2^64.  Out-parameters written through pointers
are modelled as returned values; an out-parameter the C code leaves
unwritten is returned as `none`.  Callers inside this repository always
pass a valid (non-null) out-pointer for `state`, so only the nullness of
subject handles is modelled.
-/

namespace Bark

/-! ### Error codes (asm-generic errno values used via -EINVAL etc.) -/

def EINVAL : Int := 22

def EPERM : Int := 1

def EACCES : Int := 13

def ENOENT : Int := 2

/-- bark.h: `BARK_ERR_ENTROPY_EXCEEDED` = -EPERM -/
def BARK_ERR_ENTROPY_EXCEEDED : Int := -EPERM

/-- bark.h: `BARK_ERR_SIGNATURE_INVALID` = -EACCES -/
def BARK_ERR_SIGNATURE_INVALID : Int := -EACCES

/-- bark.h: `BARK_ERR_NOT_AUTHORIZED` = -EACCES -/
def BARK_ERR_NOT_AUTHORIZED : Int := -EACCES

/-- bark.h: `enum bark_sig_state`. -/
inductive SigState where
  | unknown
  | valid
  | invalid
  | missing
  deriving DecidableEq

/-- bark.h: `struct bark_file_security`. -/
structure bark_file_security where
  sig_state : SigState
  signature_hash : String
  deriving DecidableEq

/-- bark.h: `struct bark_task_security`. -/
structure bark_task_security where
  sig_state : SigState
  authorization_time : Nat
  authorization_count : Nat
  is_substrate_process : Bool
  deriving DecidableEq

/-- Host `struct file`: an executable image with raw content and an
optional signature blob.  The content and signature fields exist so that
independence of the verification verdict from them is expressible; the
stub code never reads them. -/
structure CFile where
  id : Nat
  content : List Nat
  signature : Option String
  deriving DecidableEq

/-- Host `struct task_struct`: `exe_file` models the result of the
external `get_task_exe_file` lookup (`none` = executable unresolvable). -/
structure CTask where
  pid : Int
  comm : String
  exe_file : Option CFile
  deriving DecidableEq

/-- bark.h `bark_file`: stub accessor, returns NULL ("would return the
file's security blob in real implementation"). -/
def bark_file (_file : CFile) : Option bark_file_security := none

/-- bark.h `bark_task`: stub accessor, returns NULL ("would return the
task's security blob in real implementation"). -/
def bark_task (_task : CTask) : Option bark_task_security := none

/-- bark.h: `struct bark_stats` (four atomic64 counters). -/
structure BarkStats where
  authorizations : Nat
  denials : Nat
  entropy_blocks : Nat
  signature_failures : Nat
  deriving DecidableEq

/-- Global module state: the `current_entropy` atomic_long_t, the three
module parameters, and `bark_statistics`. -/
structure BarkState where
  current_entropy : Int
  bark_enforce : Int
  bark_verbose : Int
  bark_max_entropy : Nat
  stats : BarkStats
  deriving DecidableEq

/-! ### Entropy governor (bark_entropy.c) -/

/-- C conversion of a signed `long` to `unsigned long` (mod 2^64). -/
def ulongCast (e : Int) : Nat := (e % (2 ^ 64 : Int)).toNat

/-- bark_entropy.c `bark_get_entropy_level`: `atomic_long_read` of the
counter, returned as `unsigned long`. -/
def bark_get_entropy_level (current_entropy : Int) : Nat :=
  ulongCast current_entropy

/-- bark_entropy.c `bark_check_entropy_ceiling`: compares the level with
`bark_max_entropy`; on breach increments `entropy_blocks` itself and
returns -EPERM. -/
def bark_check_entropy_ceiling (s : BarkState) : Int × BarkState :=
  let level := bark_get_entropy_level s.current_entropy
  if level > s.bark_max_entropy then
    (-EPERM,
     { s with stats := { s.stats with entropy_blocks := s.stats.entropy_blocks + 1 } })
  else
    (0, s)

/-- bark_entropy.c `bark_update_entropy`: add `delta`, then decrement by
one if the counter is positive. -/
def bark_update_entropy (delta : Nat) (current_entropy : Int) : Int :=
  let v := current_entropy + (delta : Int)
  if v > 0 then v - 1 else v

/-- bark_entropy.c `bark_entropy_event`: the event-type switch mapping
event categories to deltas. -/
def classify_event_delta (event_type : Int) : Nat :=
  if event_type = 0 then 10
  else if event_type = 1 then 5
  else if event_type = 2 then 3
  else if event_type = 3 then 1
  else 1

/-- bark_entropy.c `bark_entropy_event`: classify, then update. -/
def bark_entropy_event (event_type : Int) (current_entropy : Int) : Int :=
  bark_update_entropy (classify_event_delta event_type) current_entropy

/-- Entropy counter after `n` process-creation events (event type 0). -/
def bark_entropy_events : Nat → Int → Int
  | 0, e => e
  | n + 1, e => bark_entropy_events n (bark_entropy_event 0 e)

/-- Trace of intermediate counter values produced by a sequence of
`bark_update_entropy` calls. -/
def bark_update_trace : List Nat → Int → List Int
  | [], _ => []
  | d :: ds, e =>
    let e1 := bark_update_entropy d e
    e1 :: bark_update_trace ds e1

/-! ### Signature verification and cache (bark_signature.c) -/

/-- Result of the body of `bark_verify_signature`: return code, the
value written to `*state`, the file security record after the call, and
the number of times the external (non-cached, here simulated)
verification path ran. -/
structure VerifyFileResult where
  ret : Int
  state : SigState
  fsec_out : Option bark_file_security
  ext_calls : Nat
  deriving DecidableEq

/-- bark_signature.c `bark_verify_signature`, body after the null checks
and the `bark_file` lookup: cache hit when the record's state is not
Unknown; otherwise the (placeholder) verification path sets Valid,
storing it into the record only when enforcement is on and a record
exists. -/
def bark_verify_signature_core (fsec : Option bark_file_security)
    (bark_enforce : Int) : VerifyFileResult :=
  match fsec with
  | some r =>
    if r.sig_state ≠ SigState.unknown then
      { ret := if r.sig_state = SigState.valid then 0 else -EACCES,
        state := r.sig_state, fsec_out := some r, ext_calls := 0 }
    else if bark_enforce = 0 then
      { ret := 0, state := SigState.valid, fsec_out := some r, ext_calls := 1 }
    else
      { ret := 0, state := SigState.valid,
        fsec_out := some { r with sig_state := SigState.valid }, ext_calls := 1 }
  | none =>
    if bark_enforce = 0 then
      { ret := 0, state := SigState.valid, fsec_out := none, ext_calls := 1 }
    else
      { ret := 0, state := SigState.valid, fsec_out := none, ext_calls := 1 }

/-- Result of a full `bark_verify_signature` call; `state = none` means
the out-parameter was not written (the -EINVAL path). -/
structure SigCallResult where
  ret : Int
  state : Option SigState
  fsec_out : Option bark_file_security
  ext_calls : Nat
  deriving DecidableEq

/-- bark_signature.c `bark_verify_signature`. -/
def bark_verify_signature (file : Option CFile) (bark_enforce : Int) :
    SigCallResult :=
  match file with
  | none => { ret := -EINVAL, state := none, fsec_out := none, ext_calls := 0 }
  | some f =>
    let r := bark_verify_signature_core (bark_file f) bark_enforce
    { ret := r.ret, state := some r.state, fsec_out := r.fsec_out,
      ext_calls := r.ext_calls }

/-- Result of `bark_verify_task_signature`: return code, the task
security record after the call, and the external-verification count. -/
structure VerifyTaskResult where
  ret : Int
  tsec_out : Option bark_task_security
  ext_calls : Nat
  deriving DecidableEq

/-- bark_signature.c `bark_verify_task_signature` from the
`get_task_exe_file` step onward: -ENOENT when the executable is
unresolvable; otherwise delegate to `bark_verify_signature` and cache
the state into the task record on success (when a record exists). -/
def verify_task_resolve (tsec : Option bark_task_security)
    (exe_file : Option CFile) (bark_enforce : Int) : VerifyTaskResult :=
  match exe_file with
  | none => { ret := -ENOENT, tsec_out := tsec, ext_calls := 0 }
  | some f =>
    let r := bark_verify_signature (some f) bark_enforce
    if r.ret ≠ 0 ∨ r.state ≠ some SigState.valid then
      { ret := -EACCES, tsec_out := tsec, ext_calls := r.ext_calls }
    else
      match tsec, r.state with
      | some t, some st =>
        { ret := 0, tsec_out := some { t with sig_state := st },
          ext_calls := r.ext_calls }
      | _, _ => { ret := 0, tsec_out := tsec, ext_calls := r.ext_calls }

/-- bark_signature.c `bark_verify_task_signature`, body after the null
check and the `bark_task` lookup: early return on a cached Valid. -/
def bark_verify_task_signature_core (tsec : Option bark_task_security)
    (exe_file : Option CFile) (bark_enforce : Int) : VerifyTaskResult :=
  match tsec with
  | some t =>
    if t.sig_state = SigState.valid then
      { ret := 0, tsec_out := some t, ext_calls := 0 }
    else
      verify_task_resolve (some t) exe_file bark_enforce
  | none => verify_task_resolve none exe_file bark_enforce

/-- bark_signature.c `bark_verify_task_signature`. -/
def bark_verify_task_signature (task : Option CTask) (bark_enforce : Int) :
    VerifyTaskResult :=
  match task with
  | none => { ret := -EINVAL, tsec_out := none, ext_calls := 0 }
  | some t => bark_verify_task_signature_core (bark_task t) t.exe_file bark_enforce

/-- bark_signature.c `bark_is_substrate_signed`: false on a null
signature pointer, otherwise the placeholder returns true. -/
def bark_is_substrate_signed (signature : Option String) : Bool :=
  match signature with
  | none => false
  | some _ => true

/-! ### Authorization orchestrator (bark_hooks.c, bark_main.c) -/

/-- bark.h: `struct bark_auth_result`. -/
structure bark_auth_result where
  sig_state : SigState
  entropy_level : Nat
  authorized : Bool
  reason : Option String
  deriving DecidableEq

/-- The all-zero `bark_auth_result` produced by `= {0}` / `memset`. -/
def zero_auth_result : bark_auth_result :=
  { sig_state := SigState.unknown, entropy_level := 0, authorized := false,
    reason := none }

/-- Result of `bark_authorize_task`: return code, the result structure
written through the out-pointer, and the external-verification count. -/
structure AuthCallResult where
  ret : Int
  result : bark_auth_result
  ext_calls : Nat
  deriving DecidableEq

/-- bark_hooks.c `bark_authorize_task`: entropy ceiling first, then task
signature verification. -/
def bark_authorize_task (task : Option CTask) (s : BarkState)
    (result : bark_auth_result) : AuthCallResult :=
  match task with
  | none => { ret := -EINVAL, result := result, ext_calls := 0 }
  | some t =>
    let r0 := zero_auth_result
    let level := bark_get_entropy_level s.current_entropy
    if level > s.bark_max_entropy then
      { ret := -EPERM,
        result := { r0 with
            entropy_level := level, authorized := false,
            reason := some "Entropy ceiling exceeded" },
        ext_calls := 0 }
    else
      let v := bark_verify_task_signature (some t) s.bark_enforce
      if v.ret ≠ 0 then
        { ret := v.ret,
          result := { r0 with
              entropy_level := level, sig_state := SigState.invalid,
              authorized := false,
              reason := some "Signature verification failed" },
          ext_calls := v.ext_calls }
      else
        { ret := 0,
          result := { r0 with
              entropy_level := level, sig_state := SigState.valid,
              authorized := true, reason := none },
          ext_calls := v.ext_calls }

/-- Result of an LSM hook: return code, module state after the call,
and the external-verification count for the event. -/
structure HookResult where
  ret : Int
  state_out : BarkState
  ext_calls : Nat
  deriving DecidableEq

/-- bark_main.c `bark_task_alloc_hook`: enforcement fast path, entropy
ceiling (denial increments `entropy_blocks` again, on top of the
increment already done inside `bark_check_entropy_ceiling`), then
`bark_authorize_task`, with `denials`/`authorizations` accounting. -/
def bark_task_alloc_hook (task : Option CTask) (_clone_flags : Nat)
    (s : BarkState) : HookResult :=
  if s.bark_enforce = 0 then
    { ret := 0, state_out := s, ext_calls := 0 }
  else
    let c := bark_check_entropy_ceiling s
    if c.1 ≠ 0 then
      let s1 := c.2
      { ret := BARK_ERR_ENTROPY_EXCEEDED,
        state_out :=
          { s1 with stats :=
              { s1.stats with entropy_blocks := s1.stats.entropy_blocks + 1 } },
        ext_calls := 0 }
    else
      let s1 := c.2
      let a := bark_authorize_task task s1 zero_auth_result
      if a.ret ≠ 0 then
        { ret := BARK_ERR_NOT_AUTHORIZED,
          state_out :=
            { s1 with stats := { s1.stats with denials := s1.stats.denials + 1 } },
          ext_calls := a.ext_calls }
      else
        { ret := 0,
          state_out :=
            { s1 with stats :=
                { s1.stats with authorizations := s1.stats.authorizations + 1 } },
          ext_calls := a.ext_calls }

/-- bark_main.c `bark_task_free_hook`: zeroes the task security record
when one exists; the Bool reports whether the cleanup branch ran. -/
def bark_task_free_hook (task : CTask) : Option bark_task_security × Bool :=
  match bark_task task with
  | some _ =>
    (some { sig_state := SigState.unknown, authorization_time := 0,
            authorization_count := 0, is_substrate_process := false }, true)
  | none => (none, false)

/-- Host `struct linux_binprm`. -/
structure Binprm where
  file : Option CFile
  filename : String
  deriving DecidableEq

/-- bark_main.c `bark_bprm_check_hook`: enforcement fast path, then
`bark_verify_signature` on `bprm->file`; any non-Valid outcome
increments `signature_failures` and denies with -EACCES. -/
def bark_bprm_check_hook (bprm : Binprm) (s : BarkState) : HookResult :=
  if s.bark_enforce = 0 then
    { ret := 0, state_out := s, ext_calls := 0 }
  else
    let r := bark_verify_signature bprm.file s.bark_enforce
    if r.ret ≠ 0 ∨ r.state ≠ some SigState.valid then
      { ret := BARK_ERR_SIGNATURE_INVALID,
        state_out :=
          { s with stats :=
              { s.stats with signature_failures := s.stats.signature_failures + 1 } },
        ext_calls := r.ext_calls }
    else
      { ret := 0, state_out := s, ext_calls := r.ext_calls }

/-- bark_hooks.c `bark_authorize_file_exec`. -/
def bark_authorize_file_exec (file : Option CFile) (bark_enforce : Int) : Int :=
  match file with
  | none => -EINVAL
  | some f =>
    let r := bark_verify_signature (some f) bark_enforce
    if r.ret ≠ 0 then r.ret
    else if r.state ≠ some SigState.valid then -EACCES
    else 0

/-! ### Concrete instances used by witnesses and counterexamples -/

def demo_exe : CFile := { id := 1, content := [0], signature := none }

def demo_task : CTask := { pid := 1234, comm := "init", exe_file := some demo_exe }

def demo_task_noexe : CTask := { pid := 7, comm := "lost", exe_file := none }

def zeroStats : BarkStats :=
  { authorizations := 0, denials := 0, entropy_blocks := 0, signature_failures := 0 }

/-- Enforcing state with ceiling 100 and the given entropy counter. -/
def stateAt (e : Int) : BarkState :=
  { current_entropy := e, bark_enforce := 1, bark_verbose := 0,
    bark_max_entropy := 100, stats := zeroStats }

def stateOff : BarkState :=
  { current_entropy := 500, bark_enforce := 0, bark_verbose := 0,
    bark_max_entropy := 100, stats := zeroStats }

def fileRecValid : bark_file_security :=
  { sig_state := SigState.valid, signature_hash := "" }

def taskRecValid : bark_task_security :=
  { sig_state := SigState.valid, authorization_time := 0,
    authorization_count := 0, is_substrate_process := false }

/-! ### Theorems -/

/-- C1: for every non-null file whose security record is absent or still
in state Unknown, `bark_verify_signature` writes state Valid and returns
0, independent of the file's content, signature and the enforcement
flag: the placeholder verification path unconditionally reports
success. -/
theorem C1_unjudged_file_always_valid
    (fsec : Option bark_file_security) (enforce : Int) (f : CFile)
    (h : fsec.map bark_file_security.sig_state = none ∨
         fsec.map bark_file_security.sig_state = some SigState.unknown) :
    (bark_verify_signature_core fsec enforce).ret = 0 ∧
    (bark_verify_signature_core fsec enforce).state = SigState.valid ∧
    (bark_verify_signature (some f) enforce).ret = 0 ∧
    (bark_verify_signature (some f) enforce).state = some SigState.valid := by
  have htop : (bark_verify_signature (some f) enforce).ret = 0 ∧
      (bark_verify_signature (some f) enforce).state = some SigState.valid := by
    by_cases he : enforce = 0 <;>
      simp [bark_verify_signature, bark_verify_signature_core, bark_file, he]
  refine ⟨?_, ?_, htop.1, htop.2⟩ <;>
    · cases fsec with
      | none =>
        by_cases he : enforce = 0 <;> simp [bark_verify_signature_core, he]
      | some r =>
        rcases h with h | h
        · simp [Option.map] at h
        · simp only [Option.map] at h
          have hr : r.sig_state = SigState.unknown := Option.some.inj h
          by_cases he : enforce = 0 <;>
            simp [bark_verify_signature_core, hr, he]

theorem C1_unjudged_file_always_valid_witness :
    ((none : Option bark_file_security).map bark_file_security.sig_state = none ∨
     (none : Option bark_file_security).map bark_file_security.sig_state =
       some SigState.unknown) ∧
    ((bark_verify_signature_core none 1).ret = 0 ∧
     (bark_verify_signature_core none 1).state = SigState.valid ∧
     (bark_verify_signature (some demo_exe) 1).ret = 0 ∧
     (bark_verify_signature (some demo_exe) 1).state = some SigState.valid) :=
  ⟨Or.inl rfl, C1_unjudged_file_always_valid none 1 demo_exe (Or.inl rfl)⟩

/-- C2: at a concrete failing input (enforcement on, ceiling 100,
entropy level 101, a non-null task), `bark_task_alloc_hook` denies with
`BARK_ERR_ENTROPY_EXCEEDED` and leaves `authorizations`/`denials`
unchanged, but `entropy_blocks` is incremented TWICE: once inside
`bark_check_entropy_ceiling` and once more by the hook itself — not
once, by the orchestrator only, as the claim states. -/
theorem C2_double_increment_at_ceiling :
    bark_task_alloc_hook (some demo_task) 0 (stateAt 101) =
      { ret := BARK_ERR_ENTROPY_EXCEEDED,
        state_out := { stateAt 101 with
            stats := { zeroStats with entropy_blocks := 2 } },
        ext_calls := 0 } := by
  decide

/-- Auxiliary invariant for C6: starting from a non-negative counter,
every intermediate value of an update sequence is non-negative. -/
theorem bark_update_trace_nonneg (deltas : List Nat) (e : Int) (he : 0 ≤ e) :
    ∀ x ∈ bark_update_trace deltas e, 0 ≤ x := by
  induction deltas generalizing e with
  | nil => intro x hx; simp [bark_update_trace] at hx
  | cons d ds ih =>
    intro x hx
    have h1 : 0 ≤ bark_update_entropy d e := by
      simp only [bark_update_entropy]
      split <;> omega
    simp only [bark_update_trace, List.mem_cons] at hx
    rcases hx with rfl | hx
    · exact h1
    · exact ih (bark_update_entropy d e) h1 x hx

/-- C6: for every finite sequence of `bark_update_entropy` calls with
(necessarily non-negative, `unsigned long`) deltas starting from counter
0, the entropy counter is non-negative after every step. -/
theorem C6_entropy_counter_nonneg (deltas : List Nat) (x : Int)
    (hx : x ∈ bark_update_trace deltas 0) : 0 ≤ x :=
  bark_update_trace_nonneg deltas 0 le_rfl x hx

theorem C6_entropy_counter_nonneg_witness :
    (4 : Int) ∈ bark_update_trace [5] 0 ∧ (0 : Int) ≤ 4 :=
  ⟨by decide, C6_entropy_counter_nonneg [5] 4 (by decide)⟩

/-- C7: `bark_update_entropy delta` adds `delta` and then subtracts 1
exactly when the post-add value is positive; hence `bark_update_entropy
0` on a positive counter decreases it by exactly 1, and on counter 0 it
leaves it at 0. -/
theorem C7_update_adds_then_decays (e : Int) (d : Nat) :
    (bark_update_entropy d e =
      if 0 < e + (d : Int) then e + d - 1 else e + d) ∧
    (0 < e → bark_update_entropy 0 e = e - 1) ∧
    bark_update_entropy 0 0 = 0 := by
  refine ⟨rfl, ?_, rfl⟩
  intro he
  simp only [bark_update_entropy]
  split <;> omega

theorem C7_update_adds_then_decays_witness :
    0 < (5 : Int) ∧ bark_update_entropy 0 5 = 5 - 1 :=
  ⟨by decide, (C7_update_adds_then_decays 5 0).2.1 (by decide)⟩

/-- C3: a file record whose cached state is Valid or Invalid is a pure
cache hit — `bark_verify_signature` returns the cached state, performs
zero external-verification invocations and leaves the record unchanged;
a task record cached Valid likewise short-circuits `
bark_verify_task_signature` with zero external calls; and a task record
can only ever come out of task verification unchanged or in state Valid
(so a task cached Invalid never arises from this code). -/
theorem C3_terminal_state_cache_hit
    (r : bark_file_security) (t u : bark_task_security)
    (tsec : Option bark_task_security) (exe : Option CFile) (enforce : Int)
    (hr : r.sig_state = SigState.valid ∨ r.sig_state = SigState.invalid)
    (ht : t.sig_state = SigState.valid)
    (hu : (bark_verify_task_signature_core tsec exe enforce).tsec_out = some u) :
    (bark_verify_signature_core (some r) enforce).state = r.sig_state ∧
    (bark_verify_signature_core (some r) enforce).ext_calls = 0 ∧
    (bark_verify_signature_core (some r) enforce).fsec_out = some r ∧
    bark_verify_task_signature_core (some t) exe enforce =
      { ret := 0, tsec_out := some t, ext_calls := 0 } ∧
    (tsec = some u ∨ u.sig_state = SigState.valid) := by
  have hrn : r.sig_state ≠ SigState.unknown := by
    rcases hr with h | h <;> simp [h]
  refine ⟨?_, ?_, ?_, ?_, ?_⟩
  · simp [bark_verify_signature_core, hrn]
  · simp [bark_verify_signature_core, hrn]
  · simp [bark_verify_signature_core, hrn]
  · simp [bark_verify_task_signature_core, ht]
  · cases tsec with
    | none =>
      right
      cases exe with
      | none =>
        simp [bark_verify_task_signature_core, verify_task_resolve] at hu
      | some f =>
        by_cases he : enforce = 0 <;>
          simp [bark_verify_task_signature_core, verify_task_resolve,
                bark_verify_signature, bark_verify_signature_core,
                bark_file, he] at hu
    | some t0 =>
      by_cases h0 : t0.sig_state = SigState.valid
      · left
        simpa [bark_verify_task_signature_core, h0] using hu
      · cases exe with
        | none =>
          left
          simp [bark_verify_task_signature_core, h0,
                verify_task_resolve] at hu
          simpa using hu
        | some f =>
          right
          by_cases he : enforce = 0 <;>
            · simp [bark_verify_task_signature_core, h0, verify_task_resolve,
                    bark_verify_signature, bark_verify_signature_core,
                    bark_file, he] at hu
              simp [← hu]

theorem C3_terminal_state_cache_hit_witness :
    (fileRecValid.sig_state = SigState.valid ∨
     fileRecValid.sig_state = SigState.invalid) ∧
    taskRecValid.sig_state = SigState.valid ∧
    (bark_verify_task_signature_core (some taskRecValid) none 1).tsec_out =
      some taskRecValid ∧
    ((bark_verify_signature_core (some fileRecValid) 1).state =
        fileRecValid.sig_state ∧
     (bark_verify_signature_core (some fileRecValid) 1).ext_calls = 0 ∧
     (bark_verify_signature_core (some fileRecValid) 1).fsec_out =
        some fileRecValid ∧
     bark_verify_task_signature_core (some taskRecValid) none 1 =
       { ret := 0, tsec_out := some taskRecValid, ext_calls := 0 } ∧
     (some taskRecValid = some taskRecValid ∨
      taskRecValid.sig_state = SigState.valid)) :=
  ⟨Or.inl rfl, rfl, rfl,
   C3_terminal_state_cache_hit fileRecValid taskRecValid taskRecValid
     (some taskRecValid) none 1 (Or.inl rfl) rfl rfl⟩

/-- C4: the security-record accessors `bark_file` and `bark_task` always
return NULL, so no verification outcome is ever stored into a record:
`bark_verify_signature` always runs the full non-cached path (one
external-path invocation) and stores nothing, `bark_verify_task_signature`
behaves exactly as with no record (cache branch never taken), stores
nothing, and invokes the external path once exactly when the executable
resolves, and the record-cleanup branch of the task-free hook never
runs. -/
theorem C4_accessors_null_no_cache (f : CFile) (t : CTask) (enforce : Int) :
    bark_file f = none ∧
    bark_task t = none ∧
    (bark_verify_signature (some f) enforce).fsec_out = none ∧
    (bark_verify_signature (some f) enforce).ext_calls = 1 ∧
    bark_verify_task_signature (some t) enforce =
      bark_verify_task_signature_core none t.exe_file enforce ∧
    (bark_verify_task_signature (some t) enforce).tsec_out = none ∧
    (bark_verify_task_signature (some t) enforce).ext_calls =
      (if t.exe_file.isSome then 1 else 0) ∧
    (bark_task_free_hook t).2 = false := by
  refine ⟨rfl, rfl, ?_, ?_, rfl, ?_, ?_, rfl⟩
  · by_cases he : enforce = 0 <;>
      simp [bark_verify_signature, bark_verify_signature_core, bark_file, he]
  · by_cases he : enforce = 0 <;>
      simp [bark_verify_signature, bark_verify_signature_core, bark_file, he]
  · cases hx : t.exe_file with
    | none =>
      simp [bark_verify_task_signature, bark_verify_task_signature_core,
            bark_task, verify_task_resolve, hx]
    | some g =>
      by_cases he : enforce = 0 <;>
        simp [bark_verify_task_signature, bark_verify_task_signature_core,
              bark_task, verify_task_resolve, bark_verify_signature,
              bark_verify_signature_core, bark_file, hx, he]
  · cases hx : t.exe_file with
    | none =>
      simp [bark_verify_task_signature, bark_verify_task_signature_core,
            bark_task, verify_task_resolve, hx]
    | some g =>
      by_cases he : enforce = 0 <;>
        simp [bark_verify_task_signature, bark_verify_task_signature_core,
              bark_task, verify_task_resolve, bark_verify_signature,
              bark_verify_signature_core, bark_file, hx, he]

/-- C5 counterexample: with ceiling 100 and counter 0, after ten
process-creation entropy events the counter is only 90, which does NOT
exceed the ceiling, and a task-creation authorization at that level is
allowed (return 0) with the verifier invoked once — the tenth event is
neither over the ceiling nor denied before verification, contrary to the
claim. -/
theorem C5_tenth_event_not_denied :
    bark_entropy_events 10 0 = 90 ∧
    ¬ bark_get_entropy_level 90 > 100 ∧
    (bark_task_alloc_hook (some demo_task) 0 (stateAt 90)).ret = 0 ∧
    (bark_task_alloc_hook (some demo_task) 0 (stateAt 90)).ext_calls = 1 := by
  decide

/-- C5 (amended): with ceiling 100 and counter 0, nine process-creation
events (delta 10, one unit of decay each) raise the counter to exactly
81; the tenth only reaches 90, within the ceiling; after twelve events
the counter is 108, strictly above the ceiling, and a task-creation
event arriving at that level is denied with
`BARK_ERR_ENTROPY_EXCEEDED` before signature verification executes (the
verifier is invoked zero times for that event). -/
theorem C5_entropy_scenario_amended :
    bark_entropy_events 9 0 = 81 ∧
    bark_entropy_events 10 0 = 90 ∧
    bark_entropy_events 12 0 = 108 ∧
    bark_get_entropy_level 108 > 100 ∧
    (bark_task_alloc_hook (some demo_task) 0 (stateAt 108)).ret =
      BARK_ERR_ENTROPY_EXCEEDED ∧
    (bark_task_alloc_hook (some demo_task) 0 (stateAt 108)).ext_calls = 0 := by
  decide

/-- C8: with the enforcement flag disabled, `bark_task_alloc_hook`
returns 0 (Allow) for every task argument (including null) and every
module state — in particular every entropy level and ceiling — and
leaves the whole state, hence all four statistics counters,
unchanged, with no verifier invocation. -/
theorem C8_enforcement_disabled_fast_path
    (task : Option CTask) (clone_flags : Nat) (s : BarkState)
    (h : s.bark_enforce = 0) :
    (bark_task_alloc_hook task clone_flags s).ret = 0 ∧
    (bark_task_alloc_hook task clone_flags s).state_out = s ∧
    (bark_task_alloc_hook task clone_flags s).ext_calls = 0 := by
  simp [bark_task_alloc_hook, h]

theorem C8_enforcement_disabled_fast_path_witness :
    stateOff.bark_enforce = 0 ∧
    ((bark_task_alloc_hook (some demo_task) 0 stateOff).ret = 0 ∧
     (bark_task_alloc_hook (some demo_task) 0 stateOff).state_out = stateOff ∧
     (bark_task_alloc_hook (some demo_task) 0 stateOff).ext_calls = 0) :=
  ⟨rfl, C8_enforcement_disabled_fast_path (some demo_task) 0 stateOff rfl⟩

/-- Behaviour asserted by C9 for `bark_bprm_check_hook` on binprm
`bprm`, state `s` and an arbitrary alternative entropy value `e`:
allow exactly when `bark_verify_signature` yields Valid; otherwise deny
with `BARK_ERR_SIGNATURE_INVALID` and bump `signature_failures` by
exactly one (all other counters and the entropy counter untouched); and
the hook's outcome is entirely independent of the entropy counter. -/
def bprm_hook_spec (bprm : Binprm) (s : BarkState) (e : Int) : Prop :=
  ((bark_bprm_check_hook bprm s).ret = 0 ↔
    (bark_verify_signature bprm.file s.bark_enforce).state = some SigState.valid) ∧
  ((bark_verify_signature bprm.file s.bark_enforce).state ≠ some SigState.valid →
    (bark_bprm_check_hook bprm s).ret = BARK_ERR_SIGNATURE_INVALID ∧
    (bark_bprm_check_hook bprm s).state_out =
      { s with stats :=
          { s.stats with signature_failures := s.stats.signature_failures + 1 } }) ∧
  ((bark_verify_signature bprm.file s.bark_enforce).state = some SigState.valid →
    (bark_bprm_check_hook bprm s).state_out = s) ∧
  (bark_bprm_check_hook bprm s).state_out.current_entropy = s.current_entropy ∧
  bark_bprm_check_hook bprm { s with current_entropy := e } =
    { bark_bprm_check_hook bprm s with
        state_out :=
          { (bark_bprm_check_hook bprm s).state_out with current_entropy := e } }

/-- C9: with enforcement enabled, `bark_bprm_check_hook` returns Allow
exactly when `bark_verify_signature` yields state Valid; any other
outcome increments `signature_failures` by exactly one and denies with
`BARK_ERR_SIGNATURE_INVALID`; and in either case the hook neither reads
nor mutates the entropy counter. -/
theorem C9_bprm_check_signature_gate (bprm : Binprm) (s : BarkState) (e : Int)
    (h : s.bark_enforce ≠ 0) : bprm_hook_spec bprm s e := by
  cases hf : bprm.file with
  | none =>
    refine ⟨?_, ?_, ?_, ?_, ?_⟩ <;>
      simp [bprm_hook_spec, bark_bprm_check_hook, bark_verify_signature,
            BARK_ERR_SIGNATURE_INVALID, EACCES, EINVAL, hf, h]
  | some f =>
    refine ⟨?_, ?_, ?_, ?_, ?_⟩ <;>
      simp [bprm_hook_spec, bark_bprm_check_hook, bark_verify_signature,
            bark_verify_signature_core, bark_file, hf, h]

theorem C9_bprm_check_signature_gate_witness :
    (stateAt 0).bark_enforce ≠ 0 ∧
    bprm_hook_spec { file := some demo_exe, filename := "a" } (stateAt 0) 42 :=
  ⟨by decide,
   C9_bprm_check_signature_gate { file := some demo_exe, filename := "a" }
     (stateAt 0) 42 (by decide)⟩

/-- C10: for every task record whose cached state is not Valid, when the
executable cannot be resolved `bark_verify_task_signature` fails with
-ENOENT — distinct from the -EACCES denial code — and leaves the task
record exactly as it was (nothing is committed to the cache); likewise
for a full call on a task whose executable lookup yields nothing. -/
theorem C10_unresolvable_exe_enoent
    (tsec : Option bark_task_security) (t : CTask) (enforce : Int)
    (h1 : tsec.map bark_task_security.sig_state ≠ some SigState.valid)
    (h2 : t.exe_file = none) :
    bark_verify_task_signature_core tsec none enforce =
      { ret := -ENOENT, tsec_out := tsec, ext_calls := 0 } ∧
    (bark_verify_task_signature_core tsec none enforce).ret ≠
      BARK_ERR_NOT_AUTHORIZED ∧
    bark_verify_task_signature (some t) enforce =
      { ret := -ENOENT, tsec_out := none, ext_calls := 0 } := by
  have hcore : bark_verify_task_signature_core tsec none enforce =
      { ret := -ENOENT, tsec_out := tsec, ext_calls := 0 } := by
    cases tsec with
    | none => simp [bark_verify_task_signature_core, verify_task_resolve]
    | some u =>
      simp only [Option.map] at h1
      have hu : u.sig_state ≠ SigState.valid := by
        intro hc; exact h1 (by rw [hc])
      simp [bark_verify_task_signature_core, hu, verify_task_resolve]
  refine ⟨hcore, ?_, ?_⟩
  · rw [hcore]
    simp [BARK_ERR_NOT_AUTHORIZED, EACCES, ENOENT]
  · simp [bark_verify_task_signature, bark_verify_task_signature_core,
          bark_task, verify_task_resolve, h2]

theorem C10_unresolvable_exe_enoent_witness :
    (none : Option bark_task_security).map bark_task_security.sig_state ≠
      some SigState.valid ∧
    demo_task_noexe.exe_file = none ∧
    (bark_verify_task_signature_core none none 1 =
      { ret := -ENOENT, tsec_out := none, ext_calls := 0 } ∧
     (bark_verify_task_signature_core none none 1).ret ≠
       BARK_ERR_NOT_AUTHORIZED ∧
     bark_verify_task_signature (some demo_task_noexe) 1 =
       { ret := -ENOENT, tsec_out := none, ext_calls := 0 }) :=
  ⟨by decide, rfl,
   C10_unresolvable_exe_enoent none demo_task_noexe 1 (by decide) rfl⟩

end Bark
